import Mathlib

/-!
# Verification of the cookie-skipper scan engine

Shallow embedding of the extension's core modules:

* `src/types.ts`            — enums and payload shapes
* `src/services/geminiService.ts`   — credential cache (`getAiInstance`),
  response parsing (`findAcceptButtonSelector`), `testApiKey`
* `src/services/settingsService.ts` — `getSettings`
* `src/services/analyticsService.ts`— `sendEvent`
* `src/chrome/stateManager.ts`      — tab state store (`updateStatus`)
* `src/chrome/scanManager.ts`       — scan orchestrator (`executeScan`)
* `src/background.ts` and `src/chrome/messageHandler.ts` — the two scan
  trigger paths (action click, MANUAL_SCAN_REQUEST)

Asynchronous collaborator calls (script injection, the Gemini call, the
config fetch, the analytics POST) are modelled by passing their outcomes
in explicitly and recording each invocation as an event, so that ordering
and "was this collaborator ever called" properties can be stated.
JavaScript truthiness of optional strings (`undefined` and `""` are both
falsy) is modelled by `jsFalsyOptStr`.
-/

namespace CookieSkipper

/-- `ScanStatus` from src/types.ts. -/
inductive ScanStatus where
  | IDLE
  | SCANNING
  | ANALYZING
  | SUCCESS
  | NOT_FOUND
  | ERROR
deriving DecidableEq, Repr

/-- `OperatingMode` from src/types.ts. -/
inductive OperatingMode where
  | BYOK
  | FREE_AD_SUPPORTED
  | PRO
deriving DecidableEq, Repr

/-- `ErrorCode` from src/types.ts. -/
inductive ErrorCode where
  | API_KEY_INVALID
  | CONSENT_REQUIRED
  | COMMUNICATION_ERROR
  | CLICK_FAILED
  | HTML_FETCH_FAILED
  | SCRIPT_INJECTION_FAILED
  | CONFIG_FETCH_FAILED
  | GENERIC_ANALYSIS_ERROR
deriving DecidableEq, Repr

/-- `ErrorPayload` from src/types.ts: `{code, message}`. -/
structure ErrorPayload where
  code : ErrorCode
  message : String
deriving DecidableEq, Repr

/-- An `AppError` value (src/types.ts): message plus stable code.  Thrown
exceptions are modelled with `Except AppError`. -/
structure AppError where
  message : String
  code : ErrorCode
deriving DecidableEq, Repr

/-- `StatusUpdatePayload` from src/types.ts.  `url` and `error` are the
optional fields; `none` models an absent / `undefined` field. -/
structure StatusUpdatePayload where
  status : ScanStatus
  url : Option String
  error : Option ErrorPayload
deriving DecidableEq, Repr

/-- `UserSettings` from src/services/settingsService.ts. -/
structure UserSettings where
  mode : OperatingMode
  consent : Bool
  userKey : Option String
deriving DecidableEq, Repr

/-- JavaScript truthiness of a `string | undefined` value: `undefined`
and the empty string are falsy (`if (!apiKey) ...`). -/
def jsFalsyOptStr : Option String → Bool
  | none => true
  | some s => s = ""

/-- The string an `Option String` contributes to a JS template literal:
`undefined` prints as `"undefined"`. -/
def templateOptStr : Option String → String
  | none => "undefined"
  | some s => s

/-- The string an `OperatingMode` contributes to a JS template literal
(the enum's string value). -/
def templateMode : OperatingMode → String
  | .BYOK => "BYOK"
  | .FREE_AD_SUPPORTED => "FREE_AD_SUPPORTED"
  | .PRO => "PRO"

/-- The string a boolean contributes to a JS template literal. -/
def templateBool : Bool → String
  | true => "true"
  | false => "false"

/-! ## Credential cache — src/services/geminiService.ts -/

/-- A constructed `GoogleGenAI` client, identified by the credential it
was bound to at construction time. -/
structure AIClient where
  apiKey : String
deriving DecidableEq, Repr

/-- The module-level cache of geminiService.ts: `cachedAiInstance` and
`cachedSettingsKey`. -/
structure AICache where
  cachedAiInstance : Option AIClient
  cachedSettingsKey : Option String
deriving DecidableEq, Repr

/-- `resetAiInstanceCache` from geminiService.ts. -/
def resetAiInstanceCache (_cache : AICache) : AICache :=
  { cachedAiInstance := none, cachedSettingsKey := none }

/-- The settings key template of `getAiInstance`:
`` `${settings.mode}:${settings.consent}:${keySource}` ``. -/
def settingsKeyString (mode : OperatingMode) (consent : Bool)
    (key : Option String) : String :=
  templateMode mode ++ ":" ++ templateBool consent ++ ":" ++ templateOptStr key

deriving instance DecidableEq for Except

/-- Result of one `getAiInstance` call: the returned client or thrown
`AppError`, the cache as left behind, and how many times
`getCentralApiKey` (the remote-configuration fetch) was invoked. -/
structure GetAiResult where
  result : Except AppError AIClient
  cache : AICache
  centralFetches : Nat
deriving DecidableEq, Repr

/-- The body of `getAiInstance` below its first cache check: resolve the
API key for the active tier (PRO and FREE_AD_SUPPORTED invoke
`getCentralApiKey`, which may throw; BYOK reads `settings.userKey`),
re-check the cache against the final settings key, then run the
validation switch and cache a newly constructed client. -/
def getAiInstanceResolve (settings : UserSettings)
    (central : Except AppError String) (cache : AICache) : GetAiResult :=
  let fetched : Except AppError (Option String) × Nat :=
    match settings.mode with
    | .PRO => (central.map some, 1)
    | .FREE_AD_SUPPORTED => (central.map some, 1)
    | .BYOK => (.ok settings.userKey, 0)
  match fetched with
  | (.error e, n) => { result := .error e, cache := cache, centralFetches := n }
  | (.ok apiKey, n) =>
    let finalSettingsKey :=
      settingsKeyString settings.mode settings.consent apiKey
    -- second cache check, against the final key
    let hit : Option AIClient :=
      match cache.cachedAiInstance with
      | some inst =>
        if cache.cachedSettingsKey = some finalSettingsKey then some inst else none
      | none => none
    match hit with
    | some inst => { result := .ok inst, cache := cache, centralFetches := n }
    | none =>
      -- validation switch; on success the new instance is cached
      let built : Except AppError AIClient :=
        match settings.mode with
        | .PRO =>
          if jsFalsyOptStr apiKey then
            .error { message := "Central API Key could not be fetched for the PRO service.",
                     code := .CONFIG_FETCH_FAILED }
          else .ok { apiKey := templateOptStr apiKey }
        | .FREE_AD_SUPPORTED =>
          if !settings.consent then
            .error { message := "For the free service, consent is required. Please enable it in the extension's options.",
                     code := .CONSENT_REQUIRED }
          else if jsFalsyOptStr apiKey then
            .error { message := "Central API Key could not be fetched for the free service.",
                     code := .CONFIG_FETCH_FAILED }
          else .ok { apiKey := templateOptStr apiKey }
        | .BYOK =>
          if jsFalsyOptStr apiKey then
            .error { message := "API Key not found. Please set it in the extension options.",
                     code := .API_KEY_INVALID }
          else .ok { apiKey := templateOptStr apiKey }
      match built with
      | .error e => { result := .error e, cache := cache, centralFetches := n }
      | .ok inst =>
        { result := .ok inst,
          cache := { cachedAiInstance := some inst,
                     cachedSettingsKey := some finalSettingsKey },
          centralFetches := n }

/-- `getAiInstance` from geminiService.ts.  `central` is the outcome the
remote-configuration collaborator (`getCentralApiKey`) would produce if
invoked; `centralFetches` in the result counts its invocations. -/
def getAiInstance (settings : UserSettings)
    (central : Except AppError String) (cache : AICache) : GetAiResult :=
  -- keySource = mode === BYOK ? settings.userKey : "central"
  let keySource : Option String :=
    if settings.mode = .BYOK then settings.userKey else some "central"
  let currentSettingsKey :=
    settingsKeyString settings.mode settings.consent keySource
  -- first cache check: if (cachedAiInstance && cachedSettingsKey === currentSettingsKey)
  match cache.cachedAiInstance with
  | some inst =>
    if cache.cachedSettingsKey = some currentSettingsKey then
      { result := .ok inst, cache := cache, centralFetches := 0 }
    else
      getAiInstanceResolve settings central cache
  | none => getAiInstanceResolve settings central cache

/-- `testApiKey` from geminiService.ts.  `accepted` is whether the remote
service accepts the throwaway call; the module cache is passed through to
state what the function does (and does not do) to it. -/
def testApiKey (apiKey : String) (accepted : Bool) (cache : AICache) :
    Except AppError Unit × AICache :=
  if apiKey = "" then
    (.error { message := "API Key cannot be empty.", code := .API_KEY_INVALID }, cache)
  else if accepted then
    (.ok (), cache)
  else
    (.error { message := "This API Key appears to be invalid or lacks permissions.",
              code := .API_KEY_INVALID }, cache)

/-! ## Settings service — src/services/settingsService.ts -/

/-- The slice of `chrome.storage.sync` read by `getSettings`.  `none`
models an absent key.  The stored operating mode is one of the enum's
(nonempty, hence truthy) string values; the stored consent is the boolean
written by `saveConsent`; the stored API key is the encoded string
written by `saveUserApiKey`. -/
structure StoredSync where
  operatingMode : Option OperatingMode
  dataCollectionConsent : Option Bool
  apiKey : Option String
deriving DecidableEq, Repr

/-- `getSettings` from settingsService.ts.  `decode` stands for the
browser's `atob` (with the service's catch-and-fallback), a primitive
external to the repository; it is applied to the stored key when one is
present and truthy. -/
def getSettings (decode : String → String) (stored : StoredSync) : UserSettings :=
  { mode := stored.operatingMode.getD .FREE_AD_SUPPORTED,
    consent := stored.dataCollectionConsent.getD false,
    userKey :=
      match stored.apiKey with
      | none => none
      | some k => if k = "" then none else some (decode k) }

/-! ## Analytics service — src/services/analyticsService.ts -/

/-- The analytics endpoint URL (`API_URLS.ANALYTICS` in constants.ts). -/
def analyticsUrl : String := "https://api.example-data-licensing.com/data"

/-- `sendEvent` from analyticsService.ts, up to the point of deciding
whether a POST happens: returns the URL POSTed to, or `none` when the
consent gate short-circuits the function before any network call. -/
def sendEvent (settings : UserSettings) (_event : String) : Option String :=
  if settings.mode ≠ .FREE_AD_SUPPORTED ∨ settings.consent = false then
    none
  else
    some analyticsUrl

/-! ## A model of `JSON.parse` and the JS values it produces

`findAcceptButtonSelector` feeds the (fence-stripped) response text to
`JSON.parse` and then evaluates
`parsed && typeof parsed.selector === 'string' && parsed.selector`.
The parser below follows the JSON grammar accepted by `JSON.parse`;
numbers are kept as their lexemes since the code never does arithmetic on
them (only truthiness matters, i.e. whether the number is zero). -/

/-- The whitespace accepted between JSON tokens (also used for an
ASCII-input model of JS `String.prototype.trim`). -/
def isJsonWs (c : Char) : Bool :=
  c = ' ' || c = '\t' || c = '\n' || c = '\r'

/-- A JavaScript value produced by `JSON.parse`. -/
inductive JVal where
  | jnull
  | jbool (b : Bool)
  | jnum (lexeme : String)
  | jstr (s : String)
  | jarr (elems : List JVal)
  | jobj (fields : List (String × JVal))
deriving Repr

/-- Hex digit value, for `\u` escapes. -/
def hexVal (c : Char) : Option Nat :=
  if '0' ≤ c ∧ c ≤ '9' then some (c.toNat - '0'.toNat)
  else if 'a' ≤ c ∧ c ≤ 'f' then some (c.toNat - 'a'.toNat + 10)
  else if 'A' ≤ c ∧ c ≤ 'F' then some (c.toNat - 'A'.toNat + 10)
  else none

/-- Parse the remainder of a JSON string literal (the opening quote
already consumed), handling the escape sequences `JSON.parse` accepts. -/
def parseJString : Nat → List Char → List Char → Option (String × List Char)
  | 0, _, _ => none
  | _ + 1, [], _ => none
  | fuel + 1, c :: rest, acc =>
    if c = '"' then some (String.mk acc.reverse, rest)
    else if c = '\\' then
      match rest with
      | [] => none
      | e :: rest2 =>
        if e = '"' then parseJString fuel rest2 ('"' :: acc)
        else if e = '\\' then parseJString fuel rest2 ('\\' :: acc)
        else if e = '/' then parseJString fuel rest2 ('/' :: acc)
        else if e = 'n' then parseJString fuel rest2 ('\n' :: acc)
        else if e = 't' then parseJString fuel rest2 ('\t' :: acc)
        else if e = 'r' then parseJString fuel rest2 ('\r' :: acc)
        else if e = 'b' then parseJString fuel rest2 (Char.ofNat 8 :: acc)
        else if e = 'f' then parseJString fuel rest2 (Char.ofNat 12 :: acc)
        else if e = 'u' then
          match rest2 with
          | h1 :: h2 :: h3 :: h4 :: rest3 =>
            match hexVal h1, hexVal h2, hexVal h3, hexVal h4 with
            | some a, some b, some c3, some d =>
              parseJString fuel rest3 (Char.ofNat (((a * 16 + b) * 16 + c3) * 16 + d) :: acc)
            | _, _, _, _ => none
          | _ => none
        else none
    else parseJString fuel rest (c :: acc)

/-- Parse a JSON number and return its lexeme (strict grammar: no
leading zeros, a fraction/exponent must have digits). -/
def parseJNumber (cs : List Char) : Option (String × List Char) :=
  let (sign, cs1) :=
    match cs with
    | '-' :: rest => ([( '-' : Char )], rest)
    | _ => ([], cs)
  let intPart := cs1.takeWhile Char.isDigit
  let cs2 := cs1.dropWhile Char.isDigit
  if intPart.isEmpty then none
  else if intPart.length > 1 ∧ intPart.headI = '0' then none
  else
    let (fracPart, cs3) :=
      match cs2 with
      | '.' :: rest =>
        let ds := rest.takeWhile Char.isDigit
        (('.' : Char) :: ds, rest.dropWhile Char.isDigit)
      | _ => ([], cs2)
    if fracPart ≠ [] ∧ fracPart.length = 1 then none
    else
      let expParse : Option (List Char × List Char) :=
        match cs3 with
        | e :: rest =>
          if e = 'e' ∨ e = 'E' then
            let (esign, rest2) :=
              match rest with
              | s :: r2 => if s = '+' ∨ s = '-' then ([s], r2) else ([], rest)
              | [] => ([], rest)
            let ds := rest2.takeWhile Char.isDigit
            if ds.isEmpty then none else some (e :: (esign ++ ds), rest2.dropWhile Char.isDigit)
          else some ([], cs3)
        | [] => some ([], cs3)
      match expParse with
      | none => none
      | some (expPart, cs4) =>
        some (String.mk (sign ++ intPart ++ fracPart ++ expPart), cs4)

mutual

/-- Parse one JSON value (leading whitespace allowed). -/
def parseJVal : Nat → List Char → Option (JVal × List Char)
  | 0, _ => none
  | fuel + 1, cs =>
    match cs.dropWhile isJsonWs with
    | [] => none
    | c :: rest =>
      if c = 'n' then
        match rest with
        | 'u' :: 'l' :: 'l' :: r => some (.jnull, r)
        | _ => none
      else if c = 't' then
        match rest with
        | 'r' :: 'u' :: 'e' :: r => some (.jbool true, r)
        | _ => none
      else if c = 'f' then
        match rest with
        | 'a' :: 'l' :: 's' :: 'e' :: r => some (.jbool false, r)
        | _ => none
      else if c = '"' then
        (parseJString (rest.length + 1) rest []).map (fun p => (.jstr p.1, p.2))
      else if c = Char.ofNat 123 then
        match rest.dropWhile isJsonWs with
        | d :: r2 =>
          if d = Char.ofNat 125 then some (.jobj [], r2)
          else (parseJMembers fuel (rest.dropWhile isJsonWs)).map (fun p => (.jobj p.1, p.2))
        | [] => none
      else if c = '[' then
        match rest.dropWhile isJsonWs with
        | d :: r2 =>
          if d = ']' then some (.jarr [], r2)
          else (parseJElems fuel (rest.dropWhile isJsonWs)).map (fun p => (.jarr p.1, p.2))
        | [] => none
      else if c = '-' ∨ c.isDigit then
        (parseJNumber (c :: rest)).map (fun p => (.jnum p.1, p.2))
      else none

/-- Parse the members of a JSON object, up to and including the closing
brace. -/
def parseJMembers : Nat → List Char → Option (List (String × JVal) × List Char)
  | 0, _ => none
  | fuel + 1, cs =>
    match cs.dropWhile isJsonWs with
    | c :: rest =>
      if c = '"' then
        match parseJString (rest.length + 1) rest [] with
        | some (key, r1) =>
          match r1.dropWhile isJsonWs with
          | ':' :: r2 =>
            match parseJVal fuel r2 with
            | some (v, r3) =>
              match r3.dropWhile isJsonWs with
              | c2 :: r4 =>
                if c2 = ',' then
                  (parseJMembers fuel r4).map (fun p => ((key, v) :: p.1, p.2))
                else if c2 = Char.ofNat 125 then some ([(key, v)], r4)
                else none
              | [] => none
            | none => none
          | _ => none
        | none => none
      else none
    | [] => none

/-- Parse the elements of a JSON array, up to and including the closing
bracket. -/
def parseJElems : Nat → List Char → Option (List JVal × List Char)
  | 0, _ => none
  | fuel + 1, cs =>
    match parseJVal fuel cs with
    | some (v, r1) =>
      match r1.dropWhile isJsonWs with
      | c :: r2 =>
        if c = ',' then (parseJElems fuel r2).map (fun p => (v :: p.1, p.2))
        else if c = ']' then some ([v], r2)
        else none
      | [] => none
    | none => none

end

/-- `JSON.parse`: parse one value and require only whitespace after it;
`none` models a thrown `SyntaxError`. -/
def jsonParse (s : String) : Option JVal :=
  match parseJVal (s.data.length + 1) s.data with
  | some (v, rest) => if (rest.dropWhile isJsonWs).isEmpty then some v else none
  | none => none

/-- Whether a JSON number lexeme denotes zero (all digits of the integer
and fraction parts are `0`). -/
def isZeroNumLexeme (lex : String) : Bool :=
  ((lex.data.takeWhile (fun c => c ≠ 'e' ∧ c ≠ 'E')).filter Char.isDigit).all
    (fun c => c = '0')

/-- JavaScript truthiness of a `JSON.parse` result. -/
def jsTruthy : JVal → Bool
  | .jnull => false
  | .jbool b => b
  | .jnum lex => !isZeroNumLexeme lex
  | .jstr s => !(s = "")
  | .jarr _ => true
  | .jobj _ => true

/-- JavaScript property access `v.key` on a `JSON.parse` result: defined
only on objects (`JSON.parse` keeps the last duplicate key); on all other
values it yields `undefined` (`none`). -/
def jsGetProp (v : JVal) (key : String) : Option JVal :=
  match v with
  | .jobj fields => (fields.reverse.find? (fun kv => kv.1 == key)).map (fun kv => kv.2)
  | _ => none

/-- JS `String.prototype.trim` restricted to ASCII whitespace (the only
whitespace the modelled inputs contain). -/
def jsTrim (s : String) : String :=
  String.mk (((s.data.dropWhile isJsonWs).reverse.dropWhile isJsonWs).reverse)

/-- JS `\w`: `[A-Za-z0-9_]`. -/
def isWordChar (c : Char) : Bool :=
  c.isAlphanum || c = '_'

/-- The fence-stripping step of `findAcceptButtonSelector`:

`jsonStr.match(/^` ``` `(\w*)?\s*\n?(.*?)\n?\s*` ``` `$/s)` followed by
`if (match && match[2]) jsonStr = match[2].trim()`.

With the leading greedy parts maximal and the middle group lazy, a match
exists exactly when the input starts and ends with a three-backtick fence
(non-overlapping), and the first match's group 2 is the fence body minus
a leading word-character run, minus the whitespace run after it, minus
the trailing whitespace run; an empty group 2 is falsy, so the input is
then returned unchanged. -/
def fenceStrip (s : String) : String :=
  let bt : Char := Char.ofNat 96
  let cs := s.data
  if cs.length ≥ 6 ∧ cs.take 3 = [bt, bt, bt] ∧ cs.reverse.take 3 = [bt, bt, bt] then
    let body := (cs.drop 3).take (cs.length - 6)
    let afterLead := (body.dropWhile isWordChar).dropWhile isJsonWs
    let group2 := (afterLead.reverse.dropWhile isJsonWs).reverse
    if group2.isEmpty then s else jsTrim (String.mk group2)
  else s

/-- The `AppError` the catch block of `findAcceptButtonSelector` builds
for unclassified failures. -/
def genericAnalysisError : AppError :=
  { message := "An unexpected error occurred during AI analysis.",
    code := .GENERIC_ANALYSIS_ERROR }

/-- The response-processing tail of `findAcceptButtonSelector`
(geminiService.ts): trim, strip an optional markdown fence, `JSON.parse`
(a `SyntaxError` reaches the catch block and becomes
`genericAnalysisError`), then
`if (parsed && typeof parsed.selector === 'string' && parsed.selector)
return parsed.selector; return null;`. -/
def parseSelectorResponse (text : String) : Except AppError (Option String) :=
  let jsonStr := fenceStrip (jsTrim text)
  match jsonParse jsonStr with
  | none => .error genericAnalysisError
  | some parsed =>
    if jsTruthy parsed then
      match jsGetProp parsed "selector" with
      | some (.jstr sel) => if !(sel = "") then .ok (some sel) else .ok none
      | _ => .ok none
    else .ok none

/-- Whether `pat` occurs as a substring of `s`
(`error.message.includes(pat)`). -/
def containsSubstring (s pat : List Char) : Bool :=
  match s with
  | [] => pat.isEmpty
  | _ :: tail => pat.isPrefixOf s || containsSubstring tail pat

/-- `findAcceptButtonSelector` from geminiService.ts.  `central` is the
remote-configuration collaborator's outcome, `response` the Gemini
call's outcome (`.error msg` models a non-`AppError` SDK failure with
message `msg`).  Client-acquisition failures are rethrown unchanged; an
SDK failure whose message contains `API key not valid` is remapped to
`API_KEY_INVALID`; any other unclassified failure becomes
`genericAnalysisError`. -/
def findAcceptButtonSelector (settings : UserSettings)
    (central : Except AppError String) (cache : AICache)
    (response : Except String String) :
    Except AppError (Option String) × AICache :=
  let g := getAiInstance settings central cache
  match g.result with
  | .error e => (.error e, g.cache)
  | .ok _ =>
    match response with
    | .error msg =>
      if containsSubstring msg.data "API key not valid".data then
        (.error { message := "Your Gemini API Key is invalid. Please check it in the settings.",
                  code := .API_KEY_INVALID }, g.cache)
      else
        (.error genericAnalysisError, g.cache)
    | .ok text => (parseSelectorResponse text, g.cache)

/-! ## Tab state store — src/chrome/stateManager.ts -/

/-- A partial `StatusUpdatePayload`, as passed to `updateStatus`.  For
each field, `none` models the key being absent from the patch object
(the merge then keeps the current value).  For `error`, `some none`
models the key being present with the value `undefined` (the spread
`{...currentState, ...newStatus}` then overwrites the field with
`undefined`), which is how the action-click listener clears a stale
error. -/
structure Patch where
  status : Option ScanStatus := none
  url : Option String := none
  error : Option (Option ErrorPayload) := none
deriving DecidableEq, Repr

/-- `getInitialState` from stateManager.ts (`url` defaults to `""`). -/
def getInitialState (url : String := "") : StatusUpdatePayload :=
  { status := .IDLE, url := some url, error := none }

/-- The spread merge `{...currentState, ...newStatus}`. -/
def applyPatch (cur : StatusUpdatePayload) (p : Patch) : StatusUpdatePayload :=
  { status := p.status.getD cur.status,
    url := match p.url with | some u => some u | none => cur.url,
    error := p.error.getD cur.error }

/-- The in-memory `tabStates` map (a `Map<number, StatusUpdatePayload>`),
modelled as an association list keyed by tab id. -/
def TabStates : Type := List (Nat × StatusUpdatePayload)

/-- `tabStates.get(tabId)`. -/
def lookupTab : TabStates → Nat → Option StatusUpdatePayload
  | [], _ => none
  | (k, v) :: rest, tabId => if k = tabId then some v else lookupTab rest tabId

/-- `tabStates.set(tabId, ...)`: replace or insert. -/
def upsertTab : TabStates → Nat → StatusUpdatePayload → TabStates
  | [], tabId, v => [(tabId, v)]
  | (k, v0) :: rest, tabId, v =>
    if k = tabId then (tabId, v) :: rest else (k, v0) :: upsertTab rest tabId v

/-- `tabStates.delete(tabId)`, as performed by the tab-lifecycle
listeners of `initializeTabStateManagement`. -/
def removeTab (σ : TabStates) (tabId : Nat) : TabStates :=
  List.filter (fun kv => kv.1 != tabId) σ

/-- The observable events of one scan, in program order:  state
broadcasts, the page-extraction injection, the Analysis Gateway call
(`findAcceptButtonSelector`, hence the remote model call), the clicker
injection, and the analytics track calls. -/
inductive AnalyticsKind where
  | success
  | notFound
  | error
deriving DecidableEq, Repr

/-- See `AnalyticsKind`. -/
inductive ScanEvent where
  | stateUpdate (tabId : Nat) (payload : StatusUpdatePayload)
  | pageExtract (tabId : Nat)
  | gatewayCall (tabId : Nat)
  | clickInject (tabId : Nat)
  | analytics (kind : AnalyticsKind)
deriving DecidableEq, Repr

/-- `updateStatus` from stateManager.ts: merge the patch onto the
current (or initial) state, store the result, and broadcast it (the
broadcast is the emitted `stateUpdate` event; the session-storage mirror
holds the same merged payload). -/
def updateStatus (σ : TabStates) (tabId : Nat) (p : Patch) :
    TabStates × ScanEvent :=
  let cur := (lookupTab σ tabId).getD (getInitialState "")
  let merged := applyPatch cur p
  (upsertTab σ tabId merged, .stateUpdate tabId merged)

/-! ## Scan orchestrator — src/chrome/scanManager.ts -/

/-- `{success, reason}` returned by the injected `clickerFunction`. -/
structure ClickOutcome where
  success : Bool
  reason : String
deriving DecidableEq, Repr

/-- Outcomes of the collaborators one `executeScan` run consults:
`htmlResult` is `injectionResults?.[0]?.result` of the HTML extraction
(`none` models `undefined`), `analysisResult` the Analysis Gateway's
outcome, `clickResult` the clicker injection's result. -/
structure ScanEnv where
  htmlResult : Option String
  analysisResult : Except AppError (Option String)
  clickResult : Option ClickOutcome
deriving DecidableEq, Repr

/-- `executeScan` from scanManager.ts: extract HTML (falsy result throws
`HTML_FETCH_FAILED`), emit `ANALYZING`, call the Analysis Gateway, then
either emit `NOT_FOUND`, or inject the clicker and emit `SUCCESS` or
throw `CLICK_FAILED`; the catch block turns any thrown `AppError` into an
`ERROR` state plus a failure analytics event.  Returns the updated store
and the event trace. -/
def executeScan (tabId : Nat) (_tabUrl : String) (env : ScanEnv)
    (σ : TabStates) : TabStates × List ScanEvent :=
  if jsFalsyOptStr env.htmlResult then
    let payload : ErrorPayload :=
      { code := .HTML_FETCH_FAILED, message := "Failed to get page HTML." }
    let r := updateStatus σ tabId { status := some .ERROR, error := some (some payload) }
    (r.1, [.pageExtract tabId, r.2, .analytics .error])
  else
    let r1 := updateStatus σ tabId { status := some .ANALYZING }
    match env.analysisResult with
    | .error e =>
      let payload : ErrorPayload := { code := e.code, message := e.message }
      let r2 := updateStatus r1.1 tabId { status := some .ERROR, error := some (some payload) }
      (r2.1, [.pageExtract tabId, r1.2, .gatewayCall tabId, r2.2, .analytics .error])
    | .ok none =>
      let r2 := updateStatus r1.1 tabId { status := some .NOT_FOUND }
      (r2.1, [.pageExtract tabId, r1.2, .gatewayCall tabId, r2.2, .analytics .notFound])
    | .ok (some _sel) =>
      let outcome := env.clickResult
      let succeeded := (outcome.map (fun r => r.success)).getD false
      if succeeded then
        let r2 := updateStatus r1.1 tabId { status := some .SUCCESS }
        (r2.1, [.pageExtract tabId, r1.2, .gatewayCall tabId, .clickInject tabId,
                r2.2, .analytics .success])
      else
        -- throw new AppError(result?.reason || "Click failed for an unknown reason.", CLICK_FAILED)
        let reason :=
          match outcome with
          | some r => if r.reason = "" then "Click failed for an unknown reason." else r.reason
          | none => "Click failed for an unknown reason."
        let payload : ErrorPayload := { code := .CLICK_FAILED, message := reason }
        let r2 := updateStatus r1.1 tabId { status := some .ERROR, error := some (some payload) }
        (r2.1, [.pageExtract tabId, r1.2, .gatewayCall tabId, .clickInject tabId,
                r2.2, .analytics .error])

/-! ## The two scan trigger paths -/

/-- The `chrome.action.onClicked` listener (background.ts): when the tab
has a truthy id and url, first push a `SCANNING` state (with the url and
an explicit `error: undefined`), then run `executeScan`. -/
def handleActionClick (tabId : Nat) (url : String) (env : ScanEnv)
    (σ : TabStates) : TabStates × List ScanEvent :=
  if tabId ≠ 0 ∧ url ≠ "" then
    let r :=
      updateStatus σ tabId { status := some .SCANNING, url := some url, error := some none }
    let s := executeScan tabId url env r.1
    (s.1, r.2 :: s.2)
  else (σ, [])

/-- The `MANUAL_SCAN_REQUEST` branch of the message router
(messageHandler.ts): resolve the active tab and, when it has a truthy id
and url, delegate straight to `executeScan`. -/
def handleManualScanRequest (activeTab : Option (Nat × String))
    (env : ScanEnv) (σ : TabStates) : TabStates × List ScanEvent :=
  match activeTab with
  | some (tabId, url) =>
    if tabId ≠ 0 ∧ url ≠ "" then executeScan tabId url env σ else (σ, [])
  | none => (σ, [])

/-- The scan statuses broadcast in an event trace, in order. -/
def stateUpdateStatuses (evs : List ScanEvent) : List ScanStatus :=
  evs.filterMap (fun e =>
    match e with
    | .stateUpdate _ p => some p.status
    | _ => none)

/-- Tab state stores reachable through action-click-triggered scans and
tab-lifecycle clears, starting from the empty store. -/
inductive ReachableAC : TabStates → Prop where
  | init : ReachableAC []
  | scan (σ : TabStates) (tabId : Nat) (url : String) (env : ScanEnv) :
      ReachableAC σ → ReachableAC (handleActionClick tabId url env σ).1
  | clear (σ : TabStates) (tabId : Nat) :
      ReachableAC σ → ReachableAC (removeTab σ tabId)

/-- The spec invariant on a store: every stored payload carries an error
exactly when its status is `ERROR`. -/
def errorIffErrorStatus (σ : TabStates) : Bool :=
  List.all σ (fun kv => kv.2.error.isSome == (kv.2.status == ScanStatus.ERROR))

/-! ## Helper lemmas -/

/-- Looking up the key just written by `upsertTab` yields the written
payload. -/
theorem lookupTab_upsertTab_self (σ : TabStates) (k : Nat)
    (v : StatusUpdatePayload) : lookupTab (upsertTab σ k v) k = some v := by
  induction σ with
  | nil => simp [upsertTab, lookupTab]
  | cons hd tl ih =>
    obtain ⟨k0, v0⟩ := hd
    by_cases hk : k0 = k
    · subst hk
      simp [upsertTab, lookupTab]
    · simp [upsertTab, lookupTab, hk, ih]

/-- `upsertTab` preserves the error-iff-ERROR store invariant when the
written payload satisfies it. -/
theorem errorIffErrorStatus_upsertTab (σ : TabStates) (k : Nat)
    (v : StatusUpdatePayload) (hσ : errorIffErrorStatus σ = true)
    (hv : v.error.isSome = (v.status == ScanStatus.ERROR)) :
    errorIffErrorStatus (upsertTab σ k v) = true := by
  induction σ with
  | nil => simp [upsertTab, errorIffErrorStatus, hv]
  | cons hd tl ih =>
    obtain ⟨k0, v0⟩ := hd
    simp only [errorIffErrorStatus, List.all_cons, Bool.and_eq_true] at hσ
    by_cases hk : k0 = k
    · have hrw : upsertTab ((k0, v0) :: tl) k v = (k, v) :: tl := by
        simp [upsertTab, hk]
      rw [hrw]
      simp only [errorIffErrorStatus, List.all_cons, Bool.and_eq_true]
      exact ⟨by simp [hv], hσ.2⟩
    · have ih2 := ih hσ.2
      simp only [upsertTab, hk, if_false, errorIffErrorStatus, List.all_cons,
        Bool.and_eq_true] at ih2 ⊢
      exact ⟨hσ.1, ih2⟩

/-- `removeTab` preserves the error-iff-ERROR store invariant. -/
theorem errorIffErrorStatus_removeTab (σ : TabStates) (t : Nat)
    (hσ : errorIffErrorStatus σ = true) :
    errorIffErrorStatus (removeTab σ t) = true := by
  induction σ with
  | nil => rfl
  | cons hd tl ih =>
    simp only [errorIffErrorStatus, List.all_cons, Bool.and_eq_true] at hσ
    have ih2 := ih hσ.2
    simp only [removeTab] at ih2 ⊢
    rw [List.filter_cons]
    split
    · simp only [errorIffErrorStatus, List.all_cons, Bool.and_eq_true]
      exact ⟨hσ.1, by simpa [errorIffErrorStatus] using ih2⟩
    · exact ih2

/-- A scan run from a store whose entry for the tab carries no error
leaves the error-iff-ERROR invariant intact: every branch either patches
only the status (keeping the absent error) or sets `ERROR` together with
an error payload. -/
theorem executeScan_preserves_errorIff (tabId : Nat) (url : String)
    (env : ScanEnv) (σ : TabStates) (p : StatusUpdatePayload)
    (hlk : lookupTab σ tabId = some p) (hperr : p.error = none)
    (hσ : errorIffErrorStatus σ = true) :
    errorIffErrorStatus (executeScan tabId url env σ).1 = true := by
  obtain ⟨h, a, c⟩ := env
  by_cases hh : jsFalsyOptStr h = true
  · simp only [executeScan, hh, if_true, updateStatus, hlk, Option.getD_some]
    exact errorIffErrorStatus_upsertTab _ _ _ hσ (by simp [applyPatch])
  · have hσ1 : errorIffErrorStatus
        (upsertTab σ tabId (applyPatch p { status := some .ANALYZING })) = true :=
      errorIffErrorStatus_upsertTab _ _ _ hσ (by simp [applyPatch, hperr])
    have hlk1 : lookupTab
        (upsertTab σ tabId (applyPatch p { status := some .ANALYZING })) tabId
        = some (applyPatch p { status := some .ANALYZING }) :=
      lookupTab_upsertTab_self σ tabId _
    cases a with
    | error e =>
      simp only [executeScan, hh, if_false, updateStatus, hlk, Option.getD_some, hlk1]
      exact errorIffErrorStatus_upsertTab _ _ _ hσ1 (by simp [applyPatch])
    | ok osel =>
      cases osel with
      | none =>
        simp only [executeScan, hh, if_false, updateStatus, hlk, Option.getD_some, hlk1]
        exact errorIffErrorStatus_upsertTab _ _ _ hσ1 (by simp [applyPatch, hperr])
      | some sel =>
        by_cases hs : ((c.map (fun r => r.success)).getD false) = true
        · simp only [executeScan, hh, if_false, updateStatus, hlk, Option.getD_some,
            hlk1, hs, if_true]
          exact errorIffErrorStatus_upsertTab _ _ _ hσ1 (by simp [applyPatch, hperr])
        · simp only [executeScan, hh, if_false, updateStatus, hlk, Option.getD_some,
            hlk1, hs, if_false]
          exact errorIffErrorStatus_upsertTab _ _ _ hσ1 (by simp [applyPatch])

/-- An action-click-triggered scan preserves the error-iff-ERROR store
invariant: the initial `SCANNING` patch explicitly clears the error
field before `executeScan` runs. -/
theorem handleActionClick_preserves_errorIff (tabId : Nat) (url : String)
    (env : ScanEnv) (σ : TabStates) (hσ : errorIffErrorStatus σ = true) :
    errorIffErrorStatus (handleActionClick tabId url env σ).1 = true := by
  by_cases hg : tabId ≠ 0 ∧ url ≠ ""
  · simp only [handleActionClick, updateStatus]
    rw [if_pos hg]
    apply executeScan_preserves_errorIff tabId url env _ _ (lookupTab_upsertTab_self σ tabId _)
    · simp [applyPatch]
    · exact errorIffErrorStatus_upsertTab _ _ _ hσ (by simp [applyPatch])
  · simp only [handleActionClick, updateStatus]
    rw [if_neg hg]
    exact hσ

/-- `executeScan` never broadcasts a `SCANNING` state: its updates are
`ANALYZING`, `NOT_FOUND`, `SUCCESS` and `ERROR` only. -/
theorem scanning_not_in_executeScan_trace (tabId : Nat) (url : String)
    (env : ScanEnv) (σ : TabStates) :
    ScanStatus.SCANNING ∉ stateUpdateStatuses (executeScan tabId url env σ).2 := by
  obtain ⟨h, a, c⟩ := env
  by_cases hh : jsFalsyOptStr h = true
  · simp [executeScan, hh, updateStatus, stateUpdateStatuses, applyPatch]
  · cases a with
    | error e =>
      simp [executeScan, hh, updateStatus, stateUpdateStatuses, applyPatch]
    | ok osel =>
      cases osel with
      | none => simp [executeScan, hh, updateStatus, stateUpdateStatuses, applyPatch]
      | some sel =>
        by_cases hs : ((c.map (fun r => r.success)).getD false) = true
        · simp [executeScan, hh, hs, updateStatus, stateUpdateStatuses, applyPatch]
        · simp [executeScan, hh, hs, updateStatus, stateUpdateStatuses, applyPatch]

/-! ## Claims -/

/-- C1 (counterexample): with tier FREE_AD_SUPPORTED, consent false and a
cold cache, `getAiInstance` invokes the remote-configuration fetch
(`getCentralApiKey`) once — not zero times as the claim requires — even
though the call does fail with `CONSENT_REQUIRED`. -/
theorem C1_fetch_invoked_counterexample :
    (getAiInstance { mode := .FREE_AD_SUPPORTED, consent := false, userKey := none }
        (.ok "central-key")
        { cachedAiInstance := none, cachedSettingsKey := none }).centralFetches = 1 ∧
    (getAiInstance { mode := .FREE_AD_SUPPORTED, consent := false, userKey := none }
        (.ok "central-key")
        { cachedAiInstance := none, cachedSettingsKey := none }).result =
      .error { message := "For the free service, consent is required. Please enable it in the extension's options.",
               code := .CONSENT_REQUIRED } := by
  constructor <;> rfl

/-- C1 (amended): with tier FREE_AD_SUPPORTED, consent false and a cold
cache, `getAiInstance` performs the remote-configuration fetch first
(exactly one invocation) and only then fails the consent check: when the
fetch succeeds the call fails with `CONSENT_REQUIRED`, and the cache is
left unchanged.  The consent check is not reached before the fetch. -/
theorem C1_free_consent_checked_after_fetch (settings : UserSettings)
    (central : Except AppError String) (cache : AICache) (k : String)
    (hmode : settings.mode = .FREE_AD_SUPPORTED)
    (hconsent : settings.consent = false)
    (hcold : cache.cachedAiInstance = none)
    (hk : central = .ok k) :
    (getAiInstance settings central cache).centralFetches = 1 ∧
    (getAiInstance settings central cache).result =
      .error { message := "For the free service, consent is required. Please enable it in the extension's options.",
               code := .CONSENT_REQUIRED } ∧
    (getAiInstance settings central cache).cache = cache := by
  obtain ⟨m, cs, uk⟩ := settings
  obtain ⟨ci, ck⟩ := cache
  simp only at hmode hconsent hcold
  subst hmode hconsent hcold hk
  simp [getAiInstance, getAiInstanceResolve, Except.map]

/-- C1 (witness): the amended theorem applied at a concrete input. -/
theorem C1_free_consent_checked_after_fetch_witness :
    (getAiInstance { mode := .FREE_AD_SUPPORTED, consent := false, userKey := none }
        (.ok "shared-key-1")
        { cachedAiInstance := none, cachedSettingsKey := none }).centralFetches = 1 ∧
    (getAiInstance { mode := .FREE_AD_SUPPORTED, consent := false, userKey := none }
        (.ok "shared-key-1")
        { cachedAiInstance := none, cachedSettingsKey := none }).result =
      .error { message := "For the free service, consent is required. Please enable it in the extension's options.",
               code := .CONSENT_REQUIRED } ∧
    (getAiInstance { mode := .FREE_AD_SUPPORTED, consent := false, userKey := none }
        (.ok "shared-key-1")
        { cachedAiInstance := none, cachedSettingsKey := none }).cache =
      { cachedAiInstance := none, cachedSettingsKey := none } :=
  C1_free_consent_checked_after_fetch _ _ _ "shared-key-1" rfl rfl rfl rfl

/-- C2 (counterexample): a scan started through the message router's
MANUAL_SCAN_REQUEST branch emits no `SCANNING` update at all; its first
state update is `ANALYZING`, and it comes after the page-extraction
call. -/
theorem C2_router_no_scanning_counterexample :
    (handleManualScanRequest (some (1, "https://example.com"))
        { htmlResult := some "<body></body>", analysisResult := .ok none,
          clickResult := none } []).2 =
      [ .pageExtract 1,
        .stateUpdate 1 { status := .ANALYZING, url := some "", error := none },
        .gatewayCall 1,
        .stateUpdate 1 { status := .NOT_FOUND, url := some "", error := none },
        .analytics .notFound ] ∧
    ScanStatus.SCANNING ∉ stateUpdateStatuses
      (handleManualScanRequest (some (1, "https://example.com"))
        { htmlResult := some "<body></body>", analysisResult := .ok none,
          clickResult := none } []).2 := by
  constructor
  · rfl
  · decide

/-- C2 (amended): only the action-click trigger emits `SCANNING` first:
there the very first emitted event is the `SCANNING` state update (hence
it precedes the page extraction and every remote call), while a scan
started through the message router's start-scan request never emits a
`SCANNING` update at all. -/
theorem C2_scanning_first_only_for_action_click (tabId : Nat) (url : String)
    (env : ScanEnv) (σ : TabStates) (tab2 : Option (Nat × String))
    (env2 : ScanEnv) (σ2 : TabStates)
    (h1 : tabId ≠ 0) (h2 : url ≠ "") :
    ((handleActionClick tabId url env σ).2).head? =
      some (.stateUpdate tabId
        { status := .SCANNING, url := some url, error := none }) ∧
    ScanStatus.SCANNING ∉ stateUpdateStatuses
      (handleManualScanRequest tab2 env2 σ2).2 := by
  constructor
  · simp only [handleActionClick, updateStatus]
    rw [if_pos ⟨h1, h2⟩]
    simp [applyPatch]
  · match tab2 with
    | none => simp [handleManualScanRequest, stateUpdateStatuses]
    | some (t, u) =>
      simp only [handleManualScanRequest]
      by_cases hg : t ≠ 0 ∧ u ≠ ""
      · rw [if_pos hg]
        exact scanning_not_in_executeScan_trace t u env2 σ2
      · rw [if_neg hg]
        simp [stateUpdateStatuses]

/-- C2 (witness): the amended theorem applied at a concrete input. -/
theorem C2_scanning_first_only_for_action_click_witness :
    ((handleActionClick 7 "https://example.org"
        { htmlResult := none, analysisResult := .ok none, clickResult := none }
        []).2).head? =
      some (.stateUpdate 7
        { status := .SCANNING, url := some "https://example.org", error := none }) ∧
    ScanStatus.SCANNING ∉ stateUpdateStatuses
      (handleManualScanRequest (some (3, "https://example.net"))
        { htmlResult := some "<body></body>", analysisResult := .ok none,
          clickResult := none } []).2 :=
  C2_scanning_first_only_for_action_click 7 "https://example.org" _ []
    (some (3, "https://example.net")) _ [] (by decide) (by decide)

/-- C3 (counterexample): a router-triggered scan skips the
error-clearing `SCANNING` patch, so after a scan ends in `ERROR` a later
router-triggered scan ending in `NOT_FOUND` leaves the stale error
payload in the stored state: the resulting store violates
"error present iff status = ERROR". -/
theorem C3_stale_error_counterexample :
    errorIffErrorStatus
      ((handleManualScanRequest (some (1, "https://example.com"))
        { htmlResult := some "<body></body>", analysisResult := .ok none,
          clickResult := none }
        ((handleManualScanRequest (some (1, "https://example.com"))
          { htmlResult := none, analysisResult := .ok none, clickResult := none }
          []).1)).1) = false ∧
    (lookupTab
      ((handleManualScanRequest (some (1, "https://example.com"))
        { htmlResult := some "<body></body>", analysisResult := .ok none,
          clickResult := none }
        ((handleManualScanRequest (some (1, "https://example.com"))
          { htmlResult := none, analysisResult := .ok none, clickResult := none }
          []).1)).1) 1).map (fun p => (p.status, p.error.isSome)) =
      some (.NOT_FOUND, true) := by
  constructor
  · rfl
  · rfl

/-- C3 (amended): in every store reachable through action-click-triggered
scans and tab-lifecycle clears, the error field is present iff the status
is `ERROR` (the action-click trigger clears the error when it pushes
`SCANNING`).  Scans triggered through the message router do not preserve
this invariant, as the counterexample shows. -/
theorem C3_error_iff_error_for_action_click_reachable (σ : TabStates)
    (h : ReachableAC σ) : errorIffErrorStatus σ = true := by
  induction h with
  | init => rfl
  | scan σ0 tabId url env _ ih =>
    exact handleActionClick_preserves_errorIff tabId url env σ0 ih
  | clear σ0 tabId _ ih =>
    exact errorIffErrorStatus_removeTab σ0 tabId ih

/-- C3 (witness): the amended theorem applied to a store reached by one
action-click scan that ends in `ERROR`. -/
theorem C3_error_iff_error_for_action_click_reachable_witness :
    ReachableAC
      ((handleActionClick 1 "https://example.com"
        { htmlResult := none, analysisResult := .ok none, clickResult := none }
        []).1) ∧
    errorIffErrorStatus
      ((handleActionClick 1 "https://example.com"
        { htmlResult := none, analysisResult := .ok none, clickResult := none }
        []).1) = true :=
  ⟨ReachableAC.scan [] 1 "https://example.com"
      { htmlResult := none, analysisResult := .ok none, clickResult := none }
      ReachableAC.init,
    C3_error_iff_error_for_action_click_reachable _
      (ReachableAC.scan [] 1 "https://example.com"
        { htmlResult := none, analysisResult := .ok none, clickResult := none }
        ReachableAC.init)⟩

/-- C4 (counterexample): a parseable response whose selector field has
the wrong type (`\x7b"selector": 42\x7d`) is a malformed response that is
*not* explicitly null, yet the code returns the soft negative `null`
instead of failing with `GENERIC_ANALYSIS_ERROR`. -/
theorem C4_wrong_type_counterexample :
    parseSelectorResponse "\x7b\"selector\":42\x7d" = .ok none ∧
    parseSelectorResponse "\x7b\"selector\":42\x7d" ≠ .error genericAnalysisError := by
  constructor
  · rfl
  · decide

/-- C4 (amended), universally: for every response body, (1) a
non-parseable body fails with `GENERIC_ANALYSIS_ERROR`; (2) *only* a
non-parseable body fails, and with no other error; (3) whenever the body
parses, a selector field holding a nonempty string is returned, and in
every other case — explicitly null, missing, wrong-typed, or the empty
string alike — the soft negative `null` is returned; and (4) in
particular a body of `\x7b"selector": null\x7d` yields `null` and no
error. -/
theorem C4_soft_negative_universal (text : String) :
    (jsonParse (fenceStrip (jsTrim text)) = none →
      parseSelectorResponse text = .error genericAnalysisError) ∧
    (∀ e, parseSelectorResponse text = .error e →
      jsonParse (fenceStrip (jsTrim text)) = none ∧ e = genericAnalysisError) ∧
    (∀ parsed, jsonParse (fenceStrip (jsTrim text)) = some parsed →
      (∀ s, jsGetProp parsed "selector" = some (JVal.jstr s) → ¬s = "" →
        parseSelectorResponse text = .ok (some s)) ∧
      ((¬∃ s, jsGetProp parsed "selector" = some (JVal.jstr s) ∧ ¬s = "") →
        parseSelectorResponse text = .ok none)) ∧
    parseSelectorResponse "\x7b\"selector\": null\x7d" = .ok none := by
  have h3 : ∀ parsed, jsonParse (fenceStrip (jsTrim text)) = some parsed →
      (∀ s, jsGetProp parsed "selector" = some (JVal.jstr s) → ¬s = "" →
        parseSelectorResponse text = .ok (some s)) ∧
      ((¬∃ s, jsGetProp parsed "selector" = some (JVal.jstr s) ∧ ¬s = "") →
        parseSelectorResponse text = .ok none) := by
    intro parsed hp
    constructor
    · intro s hs hne
      have htr : jsTruthy parsed = true := by
        cases parsed <;> first | rfl | simp [jsGetProp] at hs
      simp only [parseSelectorResponse]
      rw [hp]
      simp [htr, hs, hne]
    · intro hno
      simp only [parseSelectorResponse]
      rw [hp]
      by_cases htr : jsTruthy parsed = true
      · rcases hsel : jsGetProp parsed "selector" with _ | w
        · simp [htr, hsel]
        · cases w with
          | jstr s =>
            by_cases hse : s = ""
            · simp [htr, hsel, hse]
            · exact absurd ⟨s, hsel, hse⟩ hno
          | jnull => simp [htr, hsel]
          | jbool b => simp [htr, hsel]
          | jnum lex => simp [htr, hsel]
          | jarr xs => simp [htr, hsel]
          | jobj fs => simp [htr, hsel]
      · simp [htr]
  refine ⟨?_, ?_, h3, rfl⟩
  · intro h
    simp only [parseSelectorResponse]
    rw [h]
  · intro e he
    rcases hcase : jsonParse (fenceStrip (jsTrim text)) with _ | parsed
    · refine ⟨rfl, ?_⟩
      simp only [parseSelectorResponse] at he
      rw [hcase] at he
      injection he with h
      exact h.symm
    · exfalso
      have hsome := h3 parsed hcase
      by_cases hex : ∃ s, jsGetProp parsed "selector" = some (JVal.jstr s) ∧ ¬s = ""
      · obtain ⟨s, hs, hne⟩ := hex
        have hok := hsome.1 s hs hne
        rw [hok] at he
        exact Except.noConfusion he
      · have hok := hsome.2 hex
        rw [hok] at he
        exact Except.noConfusion he

/-- C4 (witness): the universal theorem applied at concrete bodies — a
non-parseable body, a wrong-typed selector field, and a nonempty string
selector. -/
theorem C4_soft_negative_universal_witness :
    parseSelectorResponse "not json" = .error genericAnalysisError ∧
    parseSelectorResponse "\x7b\"selector\": 7\x7d" = .ok none ∧
    parseSelectorResponse "\x7b\"selector\": \"#w\"\x7d" = .ok (some "#w") :=
  ⟨(C4_soft_negative_universal "not json").1 rfl,
   ((C4_soft_negative_universal "\x7b\"selector\": 7\x7d").2.2.1
      (JVal.jobj [("selector", JVal.jnum "7")]) rfl).2
      (by rintro ⟨s, hs, -⟩; simp [jsGetProp] at hs),
   ((C4_soft_negative_universal "\x7b\"selector\": \"#w\"\x7d").2.2.1
      (JVal.jobj [("selector", JVal.jstr "#w")]) rfl).1 "#w" rfl (by decide)⟩

/-- C5: a scan whose page extraction yields an absent or empty result
ends with the tab in `ERROR` with code `HTML_FETCH_FAILED`, and the
Analysis Gateway is never called during that scan. -/
theorem C5_html_fetch_failure_skips_gateway (tabId : Nat) (url : String)
    (env : ScanEnv) (σ : TabStates) (t : Nat)
    (h : jsFalsyOptStr env.htmlResult = true) :
    ((lookupTab (executeScan tabId url env σ).1 tabId).map
        (fun p => (p.status, p.error))) =
      some (ScanStatus.ERROR,
        some { code := .HTML_FETCH_FAILED, message := "Failed to get page HTML." }) ∧
    ScanEvent.gatewayCall t ∉ (executeScan tabId url env σ).2 := by
  constructor
  · simp only [executeScan, h, if_true, updateStatus]
    rw [lookupTab_upsertTab_self]
    simp [applyPatch]
  · simp [executeScan, h, updateStatus]

/-- C5 (witness): the theorem applied at a concrete input (extraction
returned `undefined`). -/
theorem C5_html_fetch_failure_skips_gateway_witness :
    ((lookupTab (executeScan 4 "https://example.com"
        { htmlResult := none, analysisResult := .ok none, clickResult := none }
        []).1 4).map (fun p => (p.status, p.error))) =
      some (ScanStatus.ERROR,
        some { code := .HTML_FETCH_FAILED, message := "Failed to get page HTML." }) ∧
    ScanEvent.gatewayCall 4 ∉ (executeScan 4 "https://example.com"
        { htmlResult := none, analysisResult := .ok none, clickResult := none }
        []).2 :=
  C5_html_fetch_failure_skips_gateway 4 "https://example.com" _ [] 4 rfl

/-- C6: with tier BYOK and an absent or empty user credential (and a
cold cache), `getAiInstance` fails with `API_KEY_INVALID` and performs
zero invocations of the remote-configuration fetch; the cache is left
unchanged. -/
theorem C6_byok_missing_key_no_fetch (settings : UserSettings)
    (central : Except AppError String) (cache : AICache)
    (hmode : settings.mode = .BYOK)
    (hkey : jsFalsyOptStr settings.userKey = true)
    (hcold : cache.cachedAiInstance = none) :
    (getAiInstance settings central cache).result =
      .error { message := "API Key not found. Please set it in the extension options.",
               code := .API_KEY_INVALID } ∧
    (getAiInstance settings central cache).centralFetches = 0 ∧
    (getAiInstance settings central cache).cache = cache := by
  obtain ⟨m, cs, uk⟩ := settings
  obtain ⟨ci, ck⟩ := cache
  simp only at hmode hkey hcold
  subst hmode hcold
  simp [getAiInstance, getAiInstanceResolve, hkey]

/-- C6 (witness): the theorem applied at a concrete input (empty
credential string). -/
theorem C6_byok_missing_key_no_fetch_witness :
    (getAiInstance { mode := .BYOK, consent := true, userKey := some "" }
        (.ok "central-key-2")
        { cachedAiInstance := none, cachedSettingsKey := none }).result =
      .error { message := "API Key not found. Please set it in the extension options.",
               code := .API_KEY_INVALID } ∧
    (getAiInstance { mode := .BYOK, consent := true, userKey := some "" }
        (.ok "central-key-2")
        { cachedAiInstance := none, cachedSettingsKey := none }).centralFetches = 0 ∧
    (getAiInstance { mode := .BYOK, consent := true, userKey := some "" }
        (.ok "central-key-2")
        { cachedAiInstance := none, cachedSettingsKey := none }).cache =
      { cachedAiInstance := none, cachedSettingsKey := none } :=
  C6_byok_missing_key_no_fetch _ _ _ rfl rfl rfl

/-- C7: the analytics sink never POSTs unless the active tier is
FREE_AD_SUPPORTED with consent explicitly true: for any event, with any
other tier or with consent false, `sendEvent` returns before the
network call. -/
theorem C7_analytics_consent_gate (settings : UserSettings) (event : String)
    (h : settings.mode ≠ .FREE_AD_SUPPORTED ∨ settings.consent = false) :
    sendEvent settings event = none := by
  unfold sendEvent
  rw [if_pos h]

/-- C7 (witness): the theorem applied at a concrete input (PRO tier with
consent granted still sends nothing). -/
theorem C7_analytics_consent_gate_witness :
    sendEvent { mode := .PRO, consent := true, userKey := none } "scan_result" = none :=
  C7_analytics_consent_gate _ "scan_result" (Or.inl (by decide))

/-- C8: `findAcceptButtonSelector` strips a markdown code fence wrapping
the JSON before parsing: the fenced body conforming to the claim yields
the selector `#x` (and the fence-stripping step alone recovers the bare
JSON object). -/
theorem C8_fence_stripping :
    fenceStrip (jsTrim "```json\n\x7b\"selector\":\"#x\"\x7d\n```") =
      "\x7b\"selector\":\"#x\"\x7d" ∧
    parseSelectorResponse "```json\n\x7b\"selector\":\"#x\"\x7d\n```" =
      .ok (some "#x") := by
  constructor
  · rfl
  · rfl

/-- C9: `testApiKey` never modifies the credential cache: whatever the
candidate key and whether the remote service accepts it, the cached
client handle and its settings key are returned unchanged. -/
theorem C9_testApiKey_cache_frame (apiKey : String) (accepted : Bool)
    (cache : AICache) : (testApiKey apiKey accepted cache).2 = cache := by
  unfold testApiKey
  split
  · rfl
  · split <;> rfl

/-- C10: with no stored operating mode and no stored key, `getSettings`
defaults the mode to the consent-gated FREE_AD_SUPPORTED tier, coerces
the consent flag to a boolean (false when unset), and leaves the user
key `undefined`. -/
theorem C10_default_settings_free_tier (decode : String → String)
    (stored : StoredSync)
    (hmode : stored.operatingMode = none)
    (hkey : stored.apiKey = none) :
    (getSettings decode stored).mode = .FREE_AD_SUPPORTED ∧
    (getSettings decode stored).consent = stored.dataCollectionConsent.getD false ∧
    (getSettings decode stored).userKey = none := by
  simp [getSettings, hmode, hkey]

/-- C10 (witness): the theorem applied to a completely empty store. -/
theorem C10_default_settings_free_tier_witness :
    (getSettings id
      { operatingMode := none, dataCollectionConsent := none, apiKey := none }).mode
        = .FREE_AD_SUPPORTED ∧
    (getSettings id
      { operatingMode := none, dataCollectionConsent := none, apiKey := none }).consent
        = (none : Option Bool).getD false ∧
    (getSettings id
      { operatingMode := none, dataCollectionConsent := none, apiKey := none }).userKey
        = none :=
  C10_default_settings_free_tier id _ rfl rfl

end CookieSkipper
